import Mathlib

/-!
Shallow embedding of the go-dsn package (RFC 3464/3462 delivery status
notification generation) and its address/domain transcoding helpers.

The embedding follows the Go source: pure functions become Lean
functions, Go's `(value, error)` return pattern becomes a pair of the
value and an optional error, early returns become nested matches, and a
call of a method on a nil error interface (a Go runtime panic) becomes
an explicit `panicked` result constructor.

External collaborators that the source consumes as capabilities (the
IDNA ToASCII/ToUnicode converters, Unicode NFC normalization, time
formatting) are not part of the repository; they are modelled as a
record of function parameters (`Ext`) threaded through the embedding.
-/

namespace GoDsn

/-- Errors produced by the address splitting / transcoding layer.
`unicodeMailbox` is the sentinel `ErrUnicodeMailbox`; `idnaErr` wraps an
error coming back from the external IDNA library; the first three are
the `errors.New` values created inside `split`. -/
inductive AddrErr where
  | missingAtSign
  | emptyLocalPart
  | emptyDomain
  | unicodeMailbox
  | idnaErr (msg : String)
deriving DecidableEq, Repr

/-- Model of Go `time.Time` values: an opaque representative, where
`rep = 0` is the zero instant (so `IsZero` is `rep = 0`). -/
structure GoTime where
  rep : Int
deriving DecidableEq, Repr

/-- Model of `time.Time.IsZero`. -/
def GoTime.isZero (t : GoTime) : Bool := t.rep = 0

/-- Modelled from the spec: the external capabilities consumed by the
package and absent from the repository source — IDNA ToASCII/ToUnicode
(each returning a value together with an optional error, as in Go),
Unicode NFC normalization, RFC 2822 time formatting (`Format` with the
package's layout), the default stringification of a time value used by
the text template, and truncation to whole seconds. -/
structure Ext where
  idnaToASCII : String → String × Option String
  idnaToUnicode : String → String × Option String
  nfc : String → String
  formatTime : GoTime → String
  timeString : GoTime → String
  truncSec : GoTime → GoTime

/-- ASCII lower-casing of one character, as used to model
`strings.EqualFold` on the inputs relevant here. -/
def asciiToLower (c : Char) : Char :=
  if 'A' ≤ c ∧ c ≤ 'Z' then Char.ofNat (c.toNat + 32) else c

/-- Model of `strings.EqualFold` (Go's simple case-folding restricted to
ASCII folding, which is exhaustive for the literal `"postmaster"`
comparisons the source performs). -/
def equalFold (a b : String) : Bool :=
  a.data.map asciiToLower = b.data.map asciiToLower

/-- Index of the last occurrence of a character in a list, mirroring
`strings.LastIndexByte` (for the ASCII byte `'@'`, byte positions in a
valid UTF-8 string coincide with rune-boundary positions, so the
character-level index is faithful). -/
def lastIndexChar : List Char → Char → Option Nat
  | [], _ => none
  | x :: xs, c =>
    match lastIndexChar xs c with
    | some i => some (i + 1)
    | none => if x = c then some 0 else none

/-- Embedding of `split`: splits a forward-path address at the last `@`
into mailbox and domain; the literal token `postmaster`
(case-insensitive) passes through with an empty domain. -/
def split (addr : String) : Except AddrErr (String × String) :=
  if equalFold addr "postmaster" then .ok (addr, "")
  else
    match lastIndexChar addr.data '@' with
    | none => .error .missingAtSign
    | some indx =>
      let mailbox := String.mk (addr.data.take indx)
      let domain := String.mk (addr.data.drop (indx + 1))
      if mailbox = "" then .error .emptyLocalPart
      else if domain = "" then .error .emptyDomain
      else .ok (mailbox, domain)

/-- Embedding of `toASCII`: converts the domain part to the A-label
form; rejects the local part with `unicodeMailbox` when it contains a
rune whose code point exceeds 128 (this is the source's `ch > 128`
comparison, transcribed as-is). Returns the Go-style pair of result
value and optional error. -/
def toASCII (ext : Ext) (addr : String) : String × Option AddrErr :=
  match split addr with
  | .error e => (addr, some e)
  | .ok (mbox, domain) =>
    if mbox.data.any (fun ch => ch.toNat > 128) then (addr, some .unicodeMailbox)
    else if domain = "" then (mbox, none)
    else
      match ext.idnaToASCII domain with
      | (_, some e) => (addr, some (.idnaErr e))
      | (aDomain, none) => (mbox ++ "@" ++ aDomain, none)

/-- Embedding of `toUnicode`: converts the domain part to the U-label
form and NFC-normalizes it; on any failure it returns the NFC
normalization of the original address alongside the error. -/
def toUnicode (ext : Ext) (addr : String) : String × Option AddrErr :=
  match split addr with
  | .error e => (ext.nfc addr, some e)
  | .ok (mbox, domain) =>
    if domain = "" then (mbox, none)
    else
      match ext.idnaToUnicode domain with
      | (_, some e) => (ext.nfc addr, some (.idnaErr e))
      | (uDomain, none) => (mbox ++ "@" ++ ext.nfc uDomain, none)

/-- Embedding of `addrSelectIDNA`: dispatches on the encoding mode. -/
def addrSelectIDNA (ext : Ext) (ulabel : Bool) (addr : String) : String × Option AddrErr :=
  if ulabel then toUnicode ext addr else toASCII ext addr

/-- Embedding of `dnsSelectIDNA`: the same dispatch for bare domains
(no local part). -/
def dnsSelectIDNA (ext : Ext) (ulabel : Bool) (domain : String) : String × Option AddrErr :=
  if ulabel then
    match ext.idnaToUnicode domain with
    | (uDomain, e) => (ext.nfc uDomain, e.map .idnaErr)
  else
    match ext.idnaToASCII domain with
    | (aDomain, e) => (aDomain, e.map .idnaErr)

/-- A concrete instance of the external capabilities used to evaluate
the embedding on closed inputs: IDNA conversion acts as the identity
(which is the behaviour of the real converters on already-ASCII,
lower-case domains such as `example.com`), NFC is the identity on the
ASCII inputs involved, and times are rendered by their representative. -/
def extId : Ext where
  idnaToASCII := fun s => (s, none)
  idnaToUnicode := fun s => (s, none)
  nfc := id
  formatTime := fun t => toString t.rep
  timeString := fun t => toString t.rep
  truncSec := id

/-- A MIME header field: name and value. -/
abbrev Field := String × String

/-- Modelled from the spec: the external MIME header writer capability
("an RFC-5322/MIME header writer with ordered, repeatable-key field
insertion"), so a header is the list of fields in insertion order and
`renderHeader` (the model of `textproto.WriteHeader`) emits each field
as `Name: value` followed by the blank line that terminates the block. -/
def renderHeader (h : List Field) : String :=
  String.join (h.map (fun f => f.1 ++ ": " ++ f.2 ++ "\r\n")) ++ "\r\n"

/-- The default MTA label (`xMTADefaultName = "Godsn"`). -/
def xMTADefaultName : String := "Godsn"

/-- Errors produced by the field encoders, distinguishing the
mandatory-field validation errors from wrapped transcoding errors. -/
inductive DsnErr where
  | reportingMTAMissing
  | finalRecipientRequired
  | actionRequired
  | statusRequired
  | conv (field : String) (e : AddrErr)
deriving DecidableEq, Repr

/-- Result of one `WriteTo` encoding step: the ordered field list on
success, an error, or a Go runtime panic (`panicked`). -/
inductive WriteRes where
  | ok (fields : List Field)
  | err (e : DsnErr)
  | panicked
deriving DecidableEq, Repr

/-- Embedding of `ReportingMTAInfo`. -/
structure ReportingMTAInfo where
  ReportingMTA : String
  ReceivedFromMTA : String
  XMTAName : String
  XSender : String
  XMessageID : String
  ArrivalDate : GoTime
  LastAttemptDate : GoTime
deriving DecidableEq, Repr

/-- The diagnostic carried by a recipient record: either a structured
`*smtp.SMTPError` (reply code, enhanced code triple, message) or some
other non-nil error whose `Error()` text is `text`. An absent (nil)
diagnostic is `Option.none` at the use site. -/
inductive DiagnosticCode where
  | smtpError (code : Int) (ec1 ec2 ec3 : Int) (message : String)
  | other (text : String)
deriving DecidableEq, Repr

/-- Embedding of `RecipientInfo`; `Status` models `smtp.EnhancedCode`
(a triple of ints) and `DiagnosticCode = none` models a nil error. -/
structure RecipientInfo where
  FinalRecipient : String
  RemoteMTA : String
  Action : String
  Status : Int × Int × Int
  DiagnosticCode : Option DiagnosticCode
  xMTAName : String
deriving DecidableEq, Repr

/-- Embedding of `newLineReplacer.Replace`: each LF or CR character is
replaced by one space (`strings.NewReplacer("\n", " ", "\r", " ")` with
single-character patterns is exactly this character map, implemented
over the character list). -/
def newLineReplace (s : String) : String :=
  String.mk (s.data.map (fun c => if c = '\n' ∨ c = '\r' then ' ' else c))

/-- Model of `strings.TrimSpace` over the character list: leading and
trailing whitespace characters are removed (Go trims Unicode white
space; the ASCII whitespace predicate is exhaustive for the labels the
source trims). -/
def trimSpace (s : String) : String :=
  String.mk (((s.data.dropWhile Char.isWhitespace).reverse.dropWhile
    Char.isWhitespace).reverse)

/-- The `X-<label>` header name stem: the label defaults to `Godsn`
when empty and is trimmed of surrounding whitespace
(`"X-" + strings.TrimSpace(name)` after the defaulting in the source,
which is shared between `ReportingMTAInfo.WriteTo` and
`RecipientInfo.WriteTo`). -/
def xHeaderPfx (xmtaName : String) : String :=
  "X-" ++ trimSpace (if xmtaName = "" then xMTADefaultName else xmtaName)

/-- The optional `Received-From-MTA` field of `ReportingMTAInfo.WriteTo`:
absent when the record field is empty, otherwise the transcoded domain
(a conversion failure aborts the whole encoding). -/
def receivedFromMTAFields (ext : Ext) (utf8 : Bool) (v : String) : Except DsnErr (List Field) :=
  if v = "" then .ok []
  else
    match dnsSelectIDNA ext utf8 v with
    | (_, some e) => .error (.conv "Received-From-MTA" e)
    | (receivedFromMTA, none) => .ok [("Received-From-MTA", "dns; " ++ receivedFromMTA)]

/-- The optional `X-<label>-Sender` field of `ReportingMTAInfo.WriteTo`:
absent when the record field is empty, otherwise the transcoded address
with the encoding-family tag. -/
def xSenderFields (ext : Ext) (utf8 : Bool) (xPfx v : String) : Except DsnErr (List Field) :=
  if v = "" then .ok []
  else
    match addrSelectIDNA ext utf8 v with
    | (_, some e) => .error (.conv (xPfx ++ "-Sender") e)
    | (sender, none) =>
      .ok [(xPfx ++ "-Sender", (if utf8 then "utf8; " else "rfc822; ") ++ sender)]

/-- Embedding of `ReportingMTAInfo.WriteTo`: validates the mandatory
`ReportingMTA`, transcodes the domain and address fields per the
encoding mode, and produces the fields in the order of the source's
`Add` calls (each list segment of the final result corresponds to one
`Add` site, in source order). -/
def ReportingMTAInfo.WriteTo (ext : Ext) (utf8 : Bool) (info : ReportingMTAInfo) : WriteRes :=
  if info.ReportingMTA = "" then .err .reportingMTAMissing
  else
    match dnsSelectIDNA ext utf8 info.ReportingMTA with
    | (_, some e) => .err (.conv "Reporting-MTA" e)
    | (reportingMTA, none) =>
      match receivedFromMTAFields ext utf8 info.ReceivedFromMTA with
      | .error e => .err e
      | .ok h2 =>
        match xSenderFields ext utf8 (xHeaderPfx info.XMTAName) info.XSender with
        | .error e => .err e
        | .ok h3 =>
          .ok ([("Reporting-MTA", "dns; " ++ reportingMTA)] ++ h2 ++ h3 ++
            (if info.XMessageID = "" then []
             else [(xHeaderPfx info.XMTAName ++ "-MsgID", info.XMessageID)]) ++
            (if info.ArrivalDate.isZero then []
             else [("Arrival-Date", ext.formatTime info.ArrivalDate)]) ++
            (if info.ArrivalDate.isZero then []
             else [("Last-Attempt-Date", ext.formatTime info.LastAttemptDate)]))

/-- The conditional `Diagnostic-Code` field of `RecipientInfo.WriteTo`:
a structured SMTP error always yields the `smtp;` form with line
terminators collapsed; any other non-nil error yields the `X-<label>;`
form only in UTF-8 mode and is dropped in ASCII mode; a nil diagnostic
is dropped in ASCII mode but in UTF-8 mode the source calls `Error()`
on the nil interface, which panics (`Option.none` result). -/
def diagnosticCodeFields (utf8 : Bool) (xmtaName : String) :
    Option DiagnosticCode → Option (List Field)
  | some (.smtpError code ec1 ec2 ec3 message) =>
    some [("Diagnostic-Code", "smtp; " ++ toString code ++ " " ++ toString ec1 ++ "." ++
      toString ec2 ++ "." ++ toString ec3 ++ " " ++ newLineReplace message)]
  | some (.other text) =>
    if utf8 then some [("Diagnostic-Code", xHeaderPfx xmtaName ++ "; " ++ newLineReplace text)]
    else some []
  | none => if utf8 then none else some []

/-- The optional `Remote-MTA` field of `RecipientInfo.WriteTo`. -/
def remoteMTAFields (ext : Ext) (utf8 : Bool) (v : String) : Except DsnErr (List Field) :=
  if v = "" then .ok []
  else
    match dnsSelectIDNA ext utf8 v with
    | (_, some e) => .error (.conv "Remote-MTA" e)
    | (remoteMTA, none) => .ok [("Remote-MTA", "dns; " ++ remoteMTA)]

/-- Embedding of `RecipientInfo.WriteTo`: validates the mandatory
fields, encodes the recipient block in `Add`-call order, and models the
nil-interface `Error()` call (nil diagnostic in UTF-8 mode) as a panic. -/
def RecipientInfo.WriteTo (ext : Ext) (utf8 : Bool) (info : RecipientInfo) : WriteRes :=
  if info.FinalRecipient = "" then .err .finalRecipientRequired
  else
    match addrSelectIDNA ext utf8 info.FinalRecipient with
    | (_, some e) => .err (.conv "Final-Recipient" e)
    | (finalRcpt, none) =>
      if info.Action = "" then .err .actionRequired
      else if info.Status.1 = 0 then .err .statusRequired
      else
        match diagnosticCodeFields utf8 info.xMTAName info.DiagnosticCode with
        | none => .panicked
        | some h4 =>
          match remoteMTAFields ext utf8 info.RemoteMTA with
          | .error e => .err e
          | .ok h5 =>
            .ok ([("Final-Recipient", (if utf8 then "utf8; " else "rfc822; ") ++ finalRcpt),
              ("Action", info.Action),
              ("Status", toString info.Status.1 ++ "." ++ toString info.Status.2.1 ++ "." ++
                toString info.Status.2.2)] ++ h4 ++ h5)

/-- Modelled from the spec: the multipart-writer capability ("a
multipart writer that allocates a boundary token and yields per-part
writers") — opening a part writes the boundary delimiter line followed
by the part's header block. -/
def createPart (boundary : String) (partHeader : List Field) : String :=
  "--" ++ boundary ++ "\r\n" ++ renderHeader partHeader

/-- Modelled from the spec: closing the multipart writer emits the
terminating boundary line. -/
def closeBoundary (boundary : String) : String :=
  "--" ++ boundary ++ "--\r\n"

/-- The human-readable part's header fields, in `Add`-call order. -/
def humanHeaderFields : List Field :=
  [("Content-Transfer-Encoding", "8bit"),
   ("Content-Type", "text/plain; charset=\"utf-8\""),
   ("Content-Description", "Notification")]

/-- The machine-readable part's header fields (from
`writeMachineReadablePart`): the content type is selected by the
encoding mode. -/
def machineHeaderFields (utf8 : Bool) : List Field :=
  (if utf8 then [("Content-Type", "message/global-delivery-status")]
   else [("Content-Type", "message/delivery-status")]) ++
  [("Content-Description", "Delivery report")]

/-- The original-headers part's header fields (from the source's
`writeHeader` helper): the content type is selected by the encoding
mode. -/
def headersPartFields (utf8 : Bool) : List Field :=
  [("Content-Description", "Undelivered message header")] ++
  (if utf8 then [("Content-Type", "message/global-headers")]
   else [("Content-Type", "message/rfc822-headers")]) ++
  [("Content-Transfer-Encoding", "8bit")]

/-- The digit-padded reply-code rendering used by the `Error()` method
of the dependency's structured SMTP error (modelled from that
dependency, which is outside the repository). -/
def pad3 (n : Int) : String :=
  if 0 ≤ n ∧ n < 10 then "00" ++ toString n
  else if 0 ≤ n ∧ n < 100 then "0" ++ toString n
  else toString n

/-- The `%v` rendering of the diagnostic error value in the
human-readable part: a nil error prints `<nil>`, a structured SMTP
error prints via its `Error()` method (modelled from the go-smtp
dependency), any other error prints its text. -/
def diagText : Option DiagnosticCode → String
  | none => "<nil>"
  | some (.smtpError code _ _ _ message) =>
    "SMTP error " ++ pad3 code ++ (if message = "" then "" else ": " ++ message)
  | some (.other text) => text

/-- The `FailedTemplateText` notice template instantiated at a
reporting-MTA record (the template substitutes `ReportingMTA`,
`XMessageID`, `ArrivalDate` and `LastAttemptDate`; the times render via
their default stringification). -/
def renderFailedText (ext : Ext) (info : ReportingMTAInfo) : String :=
  "\nThis is the mail delivery system at " ++ info.ReportingMTA ++
  ".\n\nUnfortunately, your message could not be delivered to one or more\n" ++
  "recipients. The usual cause of this problem is invalid\n" ++
  "recipient address or maintenance at the recipient side.\n\n" ++
  "Contact the postmaster for further assistance, provide the Message ID (below):\n\n" ++
  "Message ID: " ++ info.XMessageID ++
  "\nArrival: " ++ ext.timeString info.ArrivalDate ++
  "\nLast delivery attempt: " ++ ext.timeString info.LastAttemptDate ++ "\n\n"

/-- Embedding of `writeHumanReadablePart`: opens the part, truncates
both timestamps to whole seconds, renders the notice template and then
one diagnostic line per recipient. The underlying sink is the supplied
string accumulator, so this step itself never fails. -/
def writeHumanReadablePart (ext : Ext) (boundary : String) (mtaInfo : ReportingMTAInfo)
    (rcptsInfo : List RecipientInfo) : String :=
  let mtaInfo := { mtaInfo with
    ArrivalDate := ext.truncSec mtaInfo.ArrivalDate,
    LastAttemptDate := ext.truncSec mtaInfo.LastAttemptDate }
  createPart boundary humanHeaderFields ++ renderFailedText ext mtaInfo ++
    String.join (rcptsInfo.map (fun rcpt =>
      "Delivery to " ++ rcpt.FinalRecipient ++ " failed with error: " ++
        diagText rcpt.DiagnosticCode ++ "\n"))

/-- Completion status of the machine-readable assembly loop. -/
inductive GenStatus where
  | done
  | failed (e : DsnErr)
  | panicked
deriving DecidableEq, Repr

/-- The per-recipient loop of `writeMachineReadablePart`: each record
gets the effective MTA label before encoding; the loop stops at the
first error or panic, discarding nothing already written before it. -/
def writeRcpts (ext : Ext) (utf8 : Bool) (label : String) :
    List RecipientInfo → String × GenStatus
  | [] => ("", .done)
  | rcpt :: rest =>
    match RecipientInfo.WriteTo ext utf8 { rcpt with xMTAName := label } with
    | .err e => ("", .failed e)
    | .panicked => ("", .panicked)
    | .ok fields =>
      let (s, st) := writeRcpts ext utf8 label rest
      (renderHeader fields ++ s, st)

/-- Embedding of `writeMachineReadablePart`: opens the part (its header
is written to the sink before any validation), writes the reporting-MTA
block, then the recipient blocks with the shared effective label. -/
def writeMachineReadablePart (ext : Ext) (utf8 : Bool) (boundary : String)
    (mtaInfo : ReportingMTAInfo) (rcptsInfo : List RecipientInfo) : String × GenStatus :=
  let chunk := createPart boundary (machineHeaderFields utf8)
  match ReportingMTAInfo.WriteTo ext utf8 mtaInfo with
  | .err e => (chunk, .failed e)
  | .panicked => (chunk, .panicked)
  | .ok fields =>
    let label := if mtaInfo.XMTAName = "" then xMTADefaultName else mtaInfo.XMTAName
    let (s, st) := writeRcpts ext utf8 label rcptsInfo
    (chunk ++ renderHeader fields ++ s, st)

/-- Embedding of the source's `writeHeader` helper: opens the
original-headers part and writes the caller-supplied failed-message
header verbatim. -/
def writeHeader (utf8 : Bool) (boundary : String) (header : List Field) : String :=
  createPart boundary (headersPartFields utf8) ++ renderHeader header

/-- Embedding of `Envelope`. -/
structure Envelope where
  MsgID : String
  From : String
  To : String
deriving DecidableEq, Repr

/-- The top-level report header built by `GenerateDSN`, in `Add`-call
order; `now` stands for the formatted `time.Now()` and `boundary` for
the token allocated by the multipart writer. -/
def reportHeaderFields (now boundary : String) (envelope : Envelope) : List Field :=
  [("Date", now),
   ("Message-Id", envelope.MsgID),
   ("Content-Transfer-Encoding", "8bit"),
   ("Content-Type", "multipart/report; report-type=delivery-status; boundary=" ++ boundary),
   ("MIME-Version", "1.0"),
   ("Auto-Submitted", "auto-replied"),
   ("To", envelope.To),
   ("From", envelope.From),
   ("Subject", "Undelivered Mail Returned to Sender")]

/-- Result of `GenerateDSN`: the returned top-level header on success,
the error otherwise, or a propagated panic. -/
inductive GenRes where
  | ok (hdr : List Field)
  | err (e : DsnErr)
  | panicked
deriving DecidableEq, Repr

/-- Embedding of `GenerateDSN`: builds the top-level header, then
writes the human-readable part, the machine-readable part and the
original-headers part in that order to the output sink; the first
component of the result is everything written to the caller-supplied
sink (the deferred multipart close appends the terminating boundary on
every path, including error and panic unwinding). -/
def GenerateDSN (ext : Ext) (utf8 : Bool) (now boundary : String) (envelope : Envelope)
    (mtaInfo : ReportingMTAInfo) (rcptsInfo : List RecipientInfo)
    (failedHeader : List Field) : String × GenRes :=
  match writeMachineReadablePart ext utf8 boundary mtaInfo rcptsInfo with
  | (machine, .failed e) =>
    (writeHumanReadablePart ext boundary mtaInfo rcptsInfo ++ machine ++
      closeBoundary boundary, .err e)
  | (machine, .panicked) =>
    (writeHumanReadablePart ext boundary mtaInfo rcptsInfo ++ machine ++
      closeBoundary boundary, .panicked)
  | (machine, .done) =>
    (writeHumanReadablePart ext boundary mtaInfo rcptsInfo ++ machine ++
      writeHeader utf8 boundary failedHeader ++ closeBoundary boundary,
     .ok (reportHeaderFields now boundary envelope))

/-- The SMTP session transcript produced by a successful dispatch:
the greeting name, the MAIL FROM argument, the RCPT TO arguments in
order, and the DATA payload (header block then body). -/
structure Transcript where
  dialAddr : String
  hello : String
  mailFrom : String
  rcptTo : List String
  data : String
deriving DecidableEq, Repr

/-- Result of `SendDSN`. -/
inductive SendRes where
  | ok (hdr : List Field) (t : Transcript)
  | err (e : DsnErr)
  | panicked
deriving DecidableEq, Repr

/-- Embedding of `SendDSN`: forces the envelope `From` to the fixed
administrative display name, generates the DSN into a buffer, and then
drives the relay session — modelled from the spec as the reliable
byte-stream capability, so the session is recorded as the transcript of
commands the code issues (`Hello "bla"`, `Mail "<>"`, one `Rcpt` per
recipient's final-recipient address, then the header and body as DATA). -/
def SendDSN (ext : Ext) (utf8 : Bool) (now boundary smtpaddr : String) (envelope : Envelope)
    (mtaInfo : ReportingMTAInfo) (rcptsInfo : List RecipientInfo)
    (failedHeader : List Field) : SendRes :=
  match GenerateDSN ext utf8 now boundary
      { envelope with From := "MAILER-DAEMON (Mail Delivery System)" }
      mtaInfo rcptsInfo failedHeader with
  | (_, .err e) => .err e
  | (_, .panicked) => .panicked
  | (body, .ok hdr) =>
    .ok hdr
      { dialAddr := smtpaddr
        hello := "bla"
        mailFrom := "<>"
        rcptTo := rcptsInfo.map (·.FinalRecipient)
        data := renderHeader hdr ++ body }


/-! ## Shape lemmas for the field encoders -/

/-- Characterization of a successful `receivedFromMTAFields` step. -/
theorem receivedFromMTAFields_ok (ext : Ext) (utf8 : Bool) (v : String) (h2 : List Field)
    (h : receivedFromMTAFields ext utf8 v = .ok h2) :
    (v = "" ∧ h2 = []) ∨
      (v ≠ "" ∧ ∃ r, dnsSelectIDNA ext utf8 v = (r, none) ∧
        h2 = [("Received-From-MTA", "dns; " ++ r)]) := by
  unfold receivedFromMTAFields at h
  split at h
  · next hv =>
    injection h with h'
    exact Or.inl ⟨hv, h'.symm⟩
  · next hv =>
    split at h
    · cases h
    · next r heq =>
      injection h with h'
      exact Or.inr ⟨hv, r, heq, h'.symm⟩

/-- Characterization of a successful `xSenderFields` step. -/
theorem xSenderFields_ok (ext : Ext) (utf8 : Bool) (xPfx v : String) (h3 : List Field)
    (h : xSenderFields ext utf8 xPfx v = .ok h3) :
    (v = "" ∧ h3 = []) ∨
      (v ≠ "" ∧ ∃ s, addrSelectIDNA ext utf8 v = (s, none) ∧
        h3 = [(xPfx ++ "-Sender", (if utf8 then "utf8; " else "rfc822; ") ++ s)]) := by
  unfold xSenderFields at h
  split at h
  · next hv =>
    injection h with h'
    exact Or.inl ⟨hv, h'.symm⟩
  · next hv =>
    split at h
    · cases h
    · next s heq =>
      injection h with h'
      exact Or.inr ⟨hv, s, heq, h'.symm⟩

/-- Characterization of a successful `remoteMTAFields` step. -/
theorem remoteMTAFields_ok (ext : Ext) (utf8 : Bool) (v : String) (h5 : List Field)
    (h : remoteMTAFields ext utf8 v = .ok h5) :
    (v = "" ∧ h5 = []) ∨
      (v ≠ "" ∧ ∃ r, dnsSelectIDNA ext utf8 v = (r, none) ∧
        h5 = [("Remote-MTA", "dns; " ++ r)]) := by
  unfold remoteMTAFields at h
  split at h
  · next hv =>
    injection h with h'
    exact Or.inl ⟨hv, h'.symm⟩
  · next hv =>
    split at h
    · cases h
    · next r heq =>
      injection h with h'
      exact Or.inr ⟨hv, r, heq, h'.symm⟩

/-- Shape of a successful `ReportingMTAInfo.WriteTo`: the mandatory
field is present and the result is the ordered concatenation of the
`Add`-site segments. -/
theorem reporting_writeTo_ok_shape (ext : Ext) (utf8 : Bool) (info : ReportingMTAInfo)
    (fields : List Field) (hok : ReportingMTAInfo.WriteTo ext utf8 info = .ok fields) :
    ∃ rm h2 h3,
      info.ReportingMTA ≠ "" ∧
      dnsSelectIDNA ext utf8 info.ReportingMTA = (rm, none) ∧
      receivedFromMTAFields ext utf8 info.ReceivedFromMTA = .ok h2 ∧
      xSenderFields ext utf8 (xHeaderPfx info.XMTAName) info.XSender = .ok h3 ∧
      fields = [("Reporting-MTA", "dns; " ++ rm)] ++ h2 ++ h3 ++
        (if info.XMessageID = "" then []
         else [(xHeaderPfx info.XMTAName ++ "-MsgID", info.XMessageID)]) ++
        (if info.ArrivalDate.isZero then []
         else [("Arrival-Date", ext.formatTime info.ArrivalDate)]) ++
        (if info.ArrivalDate.isZero then []
         else [("Last-Attempt-Date", ext.formatTime info.LastAttemptDate)]) := by
  unfold ReportingMTAInfo.WriteTo at hok
  split at hok
  · cases hok
  · next hmta =>
    split at hok
    · cases hok
    · next rm heq =>
      split at hok
      · cases hok
      · next h2 hrecv =>
        split at hok
        · cases hok
        · next h3 hsend =>
          injection hok with h'
          exact ⟨rm, h2, h3, hmta, heq, hrecv, hsend, h'.symm⟩

/-- Shape of a successful `RecipientInfo.WriteTo`: the mandatory fields
are present and the result is the ordered concatenation of the
`Add`-site segments. -/
theorem recipient_writeTo_ok_shape (ext : Ext) (utf8 : Bool) (info : RecipientInfo)
    (fields : List Field) (hok : RecipientInfo.WriteTo ext utf8 info = .ok fields) :
    ∃ fr h4 h5,
      info.FinalRecipient ≠ "" ∧
      addrSelectIDNA ext utf8 info.FinalRecipient = (fr, none) ∧
      info.Action ≠ "" ∧ info.Status.1 ≠ 0 ∧
      diagnosticCodeFields utf8 info.xMTAName info.DiagnosticCode = some h4 ∧
      remoteMTAFields ext utf8 info.RemoteMTA = .ok h5 ∧
      fields = [("Final-Recipient", (if utf8 then "utf8; " else "rfc822; ") ++ fr),
        ("Action", info.Action),
        ("Status", toString info.Status.1 ++ "." ++ toString info.Status.2.1 ++ "." ++
          toString info.Status.2.2)] ++ h4 ++ h5 := by
  unfold RecipientInfo.WriteTo at hok
  split at hok
  · cases hok
  · next hfr =>
    split at hok
    · cases hok
    · next fr heq =>
      split at hok
      · cases hok
      · next hac =>
        split at hok
        · cases hok
        · next hst =>
          split at hok
          · cases hok
          · next h4 hdiag =>
            split at hok
            · cases hok
            · next h5 hrem =>
              injection hok with h'
              exact ⟨fr, h4, h5, hfr, heq, hac, hst, hdiag, hrem, h'.symm⟩

/-! ## Claim theorems: address layer -/

/-- C7: `split` splits at the last `@`; it succeeds with an empty
domain, returning the input verbatim as local part, exactly when the
input equals `postmaster` case-insensitively; input with no `@` (other
than postmaster) fails with the missing-at-sign error, and an empty
local part or empty domain around the last `@` fails with the
corresponding malformed-address error; in particular `split "user@"`
and `split "@domain"` fail while `split "postmaster"` and
`split "Postmaster"` succeed with an empty domain. -/
theorem split_spec (addr : String) :
    (equalFold addr "postmaster" = true → split addr = .ok (addr, "")) ∧
    (∀ m, split addr = .ok (m, "") → equalFold addr "postmaster" = true ∧ m = addr) ∧
    (equalFold addr "postmaster" = false → lastIndexChar addr.data '@' = none →
      split addr = .error .missingAtSign) ∧
    (∀ i, equalFold addr "postmaster" = false → lastIndexChar addr.data '@' = some i →
      split addr =
        (if String.mk (addr.data.take i) = "" then .error .emptyLocalPart
         else if String.mk (addr.data.drop (i + 1)) = "" then .error .emptyDomain
         else .ok (String.mk (addr.data.take i), String.mk (addr.data.drop (i + 1))))) ∧
    split "user@" = .error .emptyDomain ∧
    split "@domain" = .error .emptyLocalPart ∧
    split "postmaster" = .ok ("postmaster", "") ∧
    split "Postmaster" = .ok ("Postmaster", "") := by
  refine ⟨?_, ?_, ?_, ?_, rfl, rfl, rfl, rfl⟩
  · intro h
    simp [split, h]
  · intro m hm
    by_cases hf : equalFold addr "postmaster" = true
    · refine ⟨hf, ?_⟩
      simp [split, hf] at hm
      exact hm.symm
    · exfalso
      unfold split at hm
      rw [if_neg (by simpa using hf)] at hm
      rcases hl : lastIndexChar addr.data '@' with _ | i
      · rw [hl] at hm
        cases hm
      · rw [hl] at hm
        simp only [] at hm
        split_ifs at hm with h1 h2
        injection hm with h'
        injection h' with hml hmd
        exact h2 hmd
  · intro hf hl
    unfold split
    rw [if_neg (by simpa using hf), hl]
  · intro i hf hl
    unfold split
    rw [if_neg (by simpa using hf), hl]

/-- C7 witness: a concrete application of the split characterization at
the case-folded postmaster token. -/
theorem split_spec_witness :
    split "Postmaster" = .ok ("Postmaster", "") ∧
    equalFold "Postmaster" "postmaster" = true :=
  ⟨(split_spec "Postmaster").1 (by decide), by decide⟩

/-- C3: the source's local-part scan uses `ch > 128`, so the rune
U+0080 — which is outside the 7-bit ASCII range claimed by the spec and
by the function's own documentation — is not rejected: `toASCII` on
`"\u0080@example.com"` succeeds (converting the domain) instead of
failing with the Unicode-local-part error. -/
theorem toASCII_u0080_not_rejected :
    toASCII extId "\u0080@example.com" = ("\u0080@example.com", none) ∧
    ("\u0080".data.all (fun ch => ch.toNat > 127)) = true := by
  exact ⟨rfl, by decide⟩

/-- C9: `toUnicode` returns the NFC normalization of the original
address alongside every error (split failure or IDNA failure), and on
success passes the local part through unchanged, converting only the
domain to U-label form and NFC-normalizing it (the postmaster case with
an empty domain passes through completely unchanged). -/
theorem toUnicode_spec (ext : Ext) (addr : String) :
    (∀ e, (toUnicode ext addr).2 = some e → (toUnicode ext addr).1 = ext.nfc addr) ∧
    (∀ m, split addr = .ok (m, "") → toUnicode ext addr = (m, none)) ∧
    (∀ m d u, split addr = .ok (m, d) → d ≠ "" → ext.idnaToUnicode d = (u, none) →
      toUnicode ext addr = (m ++ "@" ++ ext.nfc u, none)) := by
  refine ⟨?_, ?_, ?_⟩
  · intro e he
    unfold toUnicode at he ⊢
    cases hs : split addr with
    | error e' => simp [hs]
    | ok md =>
      obtain ⟨m, d⟩ := md
      simp only [hs] at he ⊢
      by_cases hd : d = ""
      · simp [hd] at he
      · simp only [if_neg hd] at he ⊢
        cases hu : ext.idnaToUnicode d with
        | mk u err =>
          cases err with
          | none => simp [hu] at he
          | some e' => simp [hu]
  · intro m hs
    unfold toUnicode
    simp [hs]
  · intro m d u hs hd hu
    unfold toUnicode
    simp [hs, hd, hu]

/-- C9 witness: a successful conversion with ASCII-identity
capabilities. -/
theorem toUnicode_spec_witness :
    toUnicode extId "user@example.com" = ("user@example.com", none) := by
  exact (toUnicode_spec extId "user@example.com").2.2 "user" "example.com" "example.com"
    rfl (by decide) rfl

/-- C4: a structured SMTP diagnostic is emitted, in either encoding
mode, as `smtp; <code> <class>.<subject>.<detail> <message>` with every
CR and LF of the message replaced by one space. -/
theorem diagnosticCode_smtp_spec (ext : Ext) (utf8 : Bool) (info : RecipientInfo)
    (code ec1 ec2 ec3 : Int) (message : String) (fields : List Field)
    (hd : info.DiagnosticCode = some (.smtpError code ec1 ec2 ec3 message))
    (hok : RecipientInfo.WriteTo ext utf8 info = .ok fields) :
    fields.lookup "Diagnostic-Code" =
      some ("smtp; " ++ toString code ++ " " ++ toString ec1 ++ "." ++ toString ec2 ++ "." ++
        toString ec3 ++ " " ++ newLineReplace message) := by
  obtain ⟨fr, h4, h5, _, _, _, _, hdiag, hrem, hf⟩ :=
    recipient_writeTo_ok_shape ext utf8 info fields hok
  rw [hd] at hdiag
  simp only [diagnosticCodeFields, Option.some.injEq] at hdiag
  subst hf
  rw [← hdiag]
  simp [List.lookup]

/-- C4 witness: the spec's concrete example — code 550, enhanced code
(5,1,1), message `"Mailbox not found\r\nTry again"` — yields exactly
`smtp; 550 5.1.1 Mailbox not found  Try again` (the CRLF pair becomes
two spaces). -/
theorem diagnosticCode_smtp_spec_witness :
    List.lookup "Diagnostic-Code"
      [("Final-Recipient", "rfc822; user@example.com"), ("Action", "failed"),
       ("Status", "5.1.1"),
       ("Diagnostic-Code", "smtp; 550 5.1.1 Mailbox not found  Try again")] =
      some "smtp; 550 5.1.1 Mailbox not found  Try again" := by
  exact diagnosticCode_smtp_spec extId false
    { FinalRecipient := "user@example.com", RemoteMTA := "", Action := "failed",
      Status := (5, 1, 1),
      DiagnosticCode := some (.smtpError 550 5 1 1 "Mailbox not found\r\nTry again"),
      xMTAName := "" }
    550 5 1 1 "Mailbox not found\r\nTry again"
    [("Final-Recipient", "rfc822; user@example.com"), ("Action", "failed"),
     ("Status", "5.1.1"),
     ("Diagnostic-Code", "smtp; 550 5.1.1 Mailbox not found  Try again")]
    rfl (by decide)

/-- C2: with an absent (nil) diagnostic and valid mandatory fields,
the recipient encoder succeeds and omits the Diagnostic-Code field in
ASCII mode, but in UTF-8 mode it calls `Error()` on the nil error
interface and panics — the claim that the absent-diagnostic case never
crashes or fails in either mode is contradicted by the code. -/
theorem recipientWriteTo_nil_diag_panics :
    RecipientInfo.WriteTo extId true
      { FinalRecipient := "finalrcpt@example.com", RemoteMTA := "", Action := "delivered",
        Status := (2, 0, 0), DiagnosticCode := none, xMTAName := "" } = .panicked ∧
    RecipientInfo.WriteTo extId false
      { FinalRecipient := "finalrcpt@example.com", RemoteMTA := "", Action := "delivered",
        Status := (2, 0, 0), DiagnosticCode := none, xMTAName := "" } =
      .ok [("Final-Recipient", "rfc822; finalrcpt@example.com"), ("Action", "delivered"),
        ("Status", "2.0.0")] := by
  exact ⟨by decide, by decide⟩

/-! ## Field-name characterizations -/

/-- Every `X-<label>`-prefixed field name starts with the character X. -/
theorem xHeaderPfx_head (xn suffx : String) :
    ((xHeaderPfx xn ++ suffx).data).head? = some 'X' := by
  unfold xHeaderPfx
  have h : ("X-" : String).data = ['X', '-'] := rfl
  simp [String.data_append, h]

/-- An `X-<label>`-prefixed field name never collides with a name that
does not start with X. -/
theorem xHeaderPfx_ne (xn suffx s : String) (h : s.data.head? ≠ some 'X') :
    xHeaderPfx xn ++ suffx ≠ s :=
  fun he => h (he ▸ xHeaderPfx_head xn suffx)

/-- The emitted field names of a successful reporting-MTA block, in
source order with absent optional fields dropped. -/
theorem reporting_names (ext : Ext) (utf8 : Bool) (info : ReportingMTAInfo)
    (fields : List Field) (hok : ReportingMTAInfo.WriteTo ext utf8 info = .ok fields) :
    fields.map Prod.fst =
      ["Reporting-MTA"] ++
      (if info.ReceivedFromMTA = "" then [] else ["Received-From-MTA"]) ++
      (if info.XSender = "" then [] else [xHeaderPfx info.XMTAName ++ "-Sender"]) ++
      (if info.XMessageID = "" then [] else [xHeaderPfx info.XMTAName ++ "-MsgID"]) ++
      (if info.ArrivalDate.isZero then [] else ["Arrival-Date"]) ++
      (if info.ArrivalDate.isZero then [] else ["Last-Attempt-Date"]) := by
  obtain ⟨rm, h2, h3, hmta, heq, hrecv, hsend, hf⟩ :=
    reporting_writeTo_ok_shape ext utf8 info fields hok
  subst hf
  rcases receivedFromMTAFields_ok ext utf8 _ _ hrecv with ⟨hv, hh⟩ | ⟨hv, r, hr, hh⟩ <;>
    rcases xSenderFields_ok ext utf8 _ _ _ hsend with ⟨hv2, hh2⟩ | ⟨hv2, s, hs, hh2⟩ <;>
    subst hh <;> subst hh2 <;>
    simp [hv, hv2, List.map_append,
      apply_ite (List.map (Prod.fst : String × String → String))]

/-- The emitted field names of a successful per-recipient block, in
source order with absent optional fields dropped. -/
theorem recipient_names (ext : Ext) (utf8 : Bool) (info : RecipientInfo)
    (fields : List Field) (hok : RecipientInfo.WriteTo ext utf8 info = .ok fields) :
    fields.map Prod.fst =
      ["Final-Recipient", "Action", "Status"] ++
      (match info.DiagnosticCode with
       | some (.smtpError _ _ _ _ _) => ["Diagnostic-Code"]
       | some (.other _) => if utf8 then ["Diagnostic-Code"] else []
       | none => []) ++
      (if info.RemoteMTA = "" then [] else ["Remote-MTA"]) := by
  obtain ⟨fr, h4, h5, hfr, heq, hac, hst, hdiag, hrem, hf⟩ :=
    recipient_writeTo_ok_shape ext utf8 info fields hok
  subst hf
  have hd4 : h4.map Prod.fst =
      (match info.DiagnosticCode with
       | some (.smtpError _ _ _ _ _) => ["Diagnostic-Code"]
       | some (.other _) => if utf8 then ["Diagnostic-Code"] else []
       | none => []) := by
    cases hd : info.DiagnosticCode with
    | none =>
      rw [hd] at hdiag
      unfold diagnosticCodeFields at hdiag
      cases utf8 with
      | true => cases hdiag
      | false =>
        injection hdiag with h'
        rw [← h']
        simp
    | some dc =>
      cases dc with
      | smtpError code ec1 ec2 ec3 message =>
        rw [hd] at hdiag
        unfold diagnosticCodeFields at hdiag
        injection hdiag with h'
        rw [← h']
        simp
      | other text =>
        rw [hd] at hdiag
        unfold diagnosticCodeFields at hdiag
        cases utf8 with
        | true =>
          injection hdiag with h'
          rw [← h']
          simp
        | false =>
          injection hdiag with h'
          rw [← h']
          simp
  rcases remoteMTAFields_ok ext utf8 _ _ hrem with ⟨hv, hh⟩ | ⟨hv, r, hr, hh⟩ <;>
    subst hh <;>
    simp [hv, hd4, List.map_append]

/-! ## Claim theorems: field encoding -/

/-- C5: the reporting-MTA block emits its fields in exactly the order
Reporting-MTA, Received-From-MTA, X-label-Sender, X-label-MsgID,
Arrival-Date, Last-Attempt-Date, and each per-recipient block in
exactly the order Final-Recipient, Action, Status, Diagnostic-Code,
Remote-MTA; absent optional fields are omitted but never reordered. -/
theorem field_order_spec (ext : Ext) (utf8 : Bool) :
    (∀ (info : ReportingMTAInfo) (fields : List Field),
      ReportingMTAInfo.WriteTo ext utf8 info = .ok fields →
      fields.map Prod.fst =
        ["Reporting-MTA"] ++
        (if info.ReceivedFromMTA = "" then [] else ["Received-From-MTA"]) ++
        (if info.XSender = "" then [] else [xHeaderPfx info.XMTAName ++ "-Sender"]) ++
        (if info.XMessageID = "" then [] else [xHeaderPfx info.XMTAName ++ "-MsgID"]) ++
        (if info.ArrivalDate.isZero then [] else ["Arrival-Date"]) ++
        (if info.ArrivalDate.isZero then [] else ["Last-Attempt-Date"])) ∧
    (∀ (info : RecipientInfo) (fields : List Field),
      RecipientInfo.WriteTo ext utf8 info = .ok fields →
      fields.map Prod.fst =
        ["Final-Recipient", "Action", "Status"] ++
        (match info.DiagnosticCode with
         | some (.smtpError _ _ _ _ _) => ["Diagnostic-Code"]
         | some (.other _) => if utf8 then ["Diagnostic-Code"] else []
         | none => []) ++
        (if info.RemoteMTA = "" then [] else ["Remote-MTA"])) :=
  ⟨fun info fields hok => reporting_names ext utf8 info fields hok,
   fun info fields hok => recipient_names ext utf8 info fields hok⟩

/-- C5 witness: a fully populated reporting record and a recipient
record with a structured diagnostic emit the full canonical orders. -/
theorem field_order_spec_witness :
    List.map Prod.fst
      [("Reporting-MTA", "dns; reportingmta.example.com"),
       ("Received-From-MTA", "dns; receivedmta.example.com"),
       ("X-Godsn-Sender", "rfc822; XSender@example.com"),
       ("X-Godsn-MsgID", "XMessageID"),
       ("Arrival-Date", "1"), ("Last-Attempt-Date", "2")] =
      ["Reporting-MTA", "Received-From-MTA", "X-Godsn-Sender", "X-Godsn-MsgID",
       "Arrival-Date", "Last-Attempt-Date"] ∧
    List.map Prod.fst
      [("Final-Recipient", "rfc822; finalrcpt@example.com"), ("Action", "failed"),
       ("Status", "5.0.0"), ("Diagnostic-Code", "smtp; 550 5.0.0 bad"),
       ("Remote-MTA", "dns; remotemta.example.com")] =
      ["Final-Recipient", "Action", "Status", "Diagnostic-Code", "Remote-MTA"] := by
  constructor
  · exact (field_order_spec extId false).1
      ⟨"reportingmta.example.com", "receivedmta.example.com", "", "XSender@example.com",
       "XMessageID", ⟨1⟩, ⟨2⟩⟩
      [("Reporting-MTA", "dns; reportingmta.example.com"),
       ("Received-From-MTA", "dns; receivedmta.example.com"),
       ("X-Godsn-Sender", "rfc822; XSender@example.com"),
       ("X-Godsn-MsgID", "XMessageID"),
       ("Arrival-Date", "1"), ("Last-Attempt-Date", "2")] (by decide)
  · exact (field_order_spec extId false).2
      ⟨"finalrcpt@example.com", "remotemta.example.com", "failed", (5, 0, 0),
       some (.smtpError 550 5 0 0 "bad"), ""⟩
      [("Final-Recipient", "rfc822; finalrcpt@example.com"), ("Action", "failed"),
       ("Status", "5.0.0"), ("Diagnostic-Code", "smtp; 550 5.0.0 bad"),
       ("Remote-MTA", "dns; remotemta.example.com")] (by decide)

/-- C6: the Last-Attempt-Date field is emitted if and only if the
arrival date is non-zero, regardless of the last-attempt date value
(both date fields are guarded by the same arrival-date test in the
source). -/
theorem lastAttemptDate_gating (ext : Ext) (utf8 : Bool) (info : ReportingMTAInfo)
    (fields : List Field) (hok : ReportingMTAInfo.WriteTo ext utf8 info = .ok fields) :
    ("Last-Attempt-Date" ∈ fields.map Prod.fst ↔ info.ArrivalDate.isZero = false) := by
  rw [reporting_names ext utf8 info fields hok]
  have hne1 := Ne.symm (xHeaderPfx_ne info.XMTAName "-Sender" "Last-Attempt-Date" (by decide))
  have hne2 := Ne.symm (xHeaderPfx_ne info.XMTAName "-MsgID" "Last-Attempt-Date" (by decide))
  cases hz : info.ArrivalDate.isZero <;>
    simp only [hz, List.mem_append, List.mem_singleton, List.mem_cons,
      List.not_mem_nil] <;>
    split_ifs <;> simp_all

/-- C6 witness: with a zero arrival date and a non-zero last-attempt
date, no Last-Attempt-Date field is emitted. -/
theorem lastAttemptDate_gating_witness :
    ("Last-Attempt-Date" ∈ List.map Prod.fst [("Reporting-MTA", "dns; example.com")] ↔
      GoTime.isZero ⟨0⟩ = false) :=
  lastAttemptDate_gating extId false ⟨"example.com", "", "", "", "", ⟨0⟩, ⟨5⟩⟩
    [("Reporting-MTA", "dns; example.com")] (by decide)

/-- C8: one encoding family, selected solely by the `utf8` flag,
governs the whole report: the machine-readable part's content type, the
original-headers part's content type, and the tags on the
Final-Recipient and X-label-Sender address fields all follow the
UTF-8 family when the flag is set and the ASCII family otherwise. -/
theorem encoding_family_spec (ext : Ext) (utf8 : Bool) :
    (machineHeaderFields utf8).lookup "Content-Type" =
      some (if utf8 then "message/global-delivery-status" else "message/delivery-status") ∧
    (headersPartFields utf8).lookup "Content-Type" =
      some (if utf8 then "message/global-headers" else "message/rfc822-headers") ∧
    (∀ (info : RecipientInfo) (fields : List Field),
      RecipientInfo.WriteTo ext utf8 info = .ok fields →
      ∃ s, fields.lookup "Final-Recipient" =
        some ((if utf8 then "utf8; " else "rfc822; ") ++ s)) ∧
    (∀ (info : ReportingMTAInfo) (fields : List Field),
      ReportingMTAInfo.WriteTo ext utf8 info = .ok fields → info.XSender ≠ "" →
      ∃ s, fields.lookup (xHeaderPfx info.XMTAName ++ "-Sender") =
        some ((if utf8 then "utf8; " else "rfc822; ") ++ s)) := by
  refine ⟨by cases utf8 <;> rfl, by cases utf8 <;> rfl, ?_, ?_⟩
  · intro info fields hok
    obtain ⟨fr, h4, h5, hfr, heq, hac, hst, hdiag, hrem, hf⟩ :=
      recipient_writeTo_ok_shape ext utf8 info fields hok
    subst hf
    exact ⟨fr, rfl⟩
  · intro info fields hok hxs
    obtain ⟨rm, h2, h3, hmta, heq, hrecv, hsend, hf⟩ :=
      reporting_writeTo_ok_shape ext utf8 info fields hok
    rcases xSenderFields_ok ext utf8 _ _ _ hsend with ⟨hv2, hh2⟩ | ⟨hv2, s, hs, hh2⟩
    · exact absurd hv2 hxs
    refine ⟨s, ?_⟩
    subst hf
    subst hh2
    have e1 : ((xHeaderPfx info.XMTAName ++ "-Sender") == ("Reporting-MTA" : String)) = false := by
      rw [beq_eq_false_iff_ne]
      exact xHeaderPfx_ne info.XMTAName "-Sender" "Reporting-MTA" (by decide)
    have e2 : ((xHeaderPfx info.XMTAName ++ "-Sender") ==
        ("Received-From-MTA" : String)) = false := by
      rw [beq_eq_false_iff_ne]
      exact xHeaderPfx_ne info.XMTAName "-Sender" "Received-From-MTA" (by decide)
    have e3 : ((xHeaderPfx info.XMTAName ++ "-Sender") ==
        xHeaderPfx info.XMTAName ++ "-Sender") = true := by
      rw [beq_iff_eq]
    rcases receivedFromMTAFields_ok ext utf8 _ _ hrecv with ⟨hv, hh⟩ | ⟨hv, r, hr, hh⟩ <;>
      subst hh <;>
      simp [List.lookup, e1, e2, e3]

/-- C8 witness: in UTF-8 mode the recipient block's Final-Recipient
field carries the utf8 tag. -/
theorem encoding_family_spec_witness :
    ∃ s, List.lookup "Final-Recipient"
      [("Final-Recipient", "utf8; to@example.com"), ("Action", "failed"), ("Status", "5.0.0"),
       ("Diagnostic-Code", "X-Godsn; err")] = some ("utf8; " ++ s) := by
  exact (encoding_family_spec extId true).2.2.1
    ⟨"to@example.com", "", "failed", (5, 0, 0), some (.other "err"), ""⟩
    [("Final-Recipient", "utf8; to@example.com"), ("Action", "failed"), ("Status", "5.0.0"),
     ("Diagnostic-Code", "X-Godsn; err")] (by decide)

/-! ## Claim theorems: assembly and dispatch -/

/-- C1 (amended): with an empty reporting MTA, generation fails with
the validation error, but the human-readable part and the machine part
header have already been streamed to the caller-supplied sink before
the validation runs, so a positive number of bytes has been written. -/
theorem generateDSN_empty_reportingMTA (ext : Ext) (utf8 : Bool) (now boundary : String)
    (envelope : Envelope) (mtaInfo : ReportingMTAInfo) (rcptsInfo : List RecipientInfo)
    (failedHeader : List Field) (h : mtaInfo.ReportingMTA = "") :
    (GenerateDSN ext utf8 now boundary envelope mtaInfo rcptsInfo failedHeader).2 =
      .err .reportingMTAMissing ∧
    0 < (GenerateDSN ext utf8 now boundary envelope mtaInfo rcptsInfo failedHeader).1.length := by
  have hw : ReportingMTAInfo.WriteTo ext utf8 mtaInfo = .err .reportingMTAMissing := by
    unfold ReportingMTAInfo.WriteTo
    rw [if_pos h]
  have hm : writeMachineReadablePart ext utf8 boundary mtaInfo rcptsInfo =
      (createPart boundary (machineHeaderFields utf8), .failed .reportingMTAMissing) := by
    unfold writeMachineReadablePart
    rw [hw]
  unfold GenerateDSN
  rw [hm]
  refine ⟨rfl, ?_⟩
  show 0 < (writeHumanReadablePart ext boundary mtaInfo rcptsInfo ++
    createPart boundary (machineHeaderFields utf8) ++ closeBoundary boundary).length
  have h2 : ("--" : String).length = 2 := rfl
  unfold writeHumanReadablePart createPart
  simp only [String.length_append, h2]
  omega

/-- C1 counterexample: at a concrete call with an empty reporting MTA,
generation does return the validation error, but the bytes written to
the output sink are not empty, refuting the zero-bytes part of the
claim. -/
theorem generateDSN_empty_reportingMTA_counterexample :
    (GenerateDSN extId false "now" "b" ⟨"msgid1", "from@example.com", "to@example.com"⟩
      ⟨"", "", "", "", "", ⟨0⟩, ⟨0⟩⟩ [] []).2 = .err .reportingMTAMissing ∧
    (GenerateDSN extId false "now" "b" ⟨"msgid1", "from@example.com", "to@example.com"⟩
      ⟨"", "", "", "", "", ⟨0⟩, ⟨0⟩⟩ [] []).1 ≠ "" := by
  exact ⟨by decide, by decide⟩

/-- C1 witness: a concrete application of the amended statement. -/
theorem generateDSN_empty_reportingMTA_witness :
    (GenerateDSN extId true "now" "b" ⟨"m", "f", "t"⟩
      ⟨"", "", "", "", "", ⟨0⟩, ⟨0⟩⟩ [] []).2 = .err .reportingMTAMissing ∧
    0 < (GenerateDSN extId true "now" "b" ⟨"m", "f", "t"⟩
      ⟨"", "", "", "", "", ⟨0⟩, ⟨0⟩⟩ [] []).1.length :=
  generateDSN_empty_reportingMTA extId true "now" "b" ⟨"m", "f", "t"⟩
    ⟨"", "", "", "", "", ⟨0⟩, ⟨0⟩⟩ [] [] rfl

/-- A successful `GenerateDSN` returns exactly the top-level report
header built from the envelope. -/
theorem generateDSN_ok_hdr (ext : Ext) (utf8 : Bool) (now boundary : String)
    (envelope : Envelope) (mtaInfo : ReportingMTAInfo) (rcptsInfo : List RecipientInfo)
    (failedHeader : List Field) (out : String) (hdr : List Field)
    (h : GenerateDSN ext utf8 now boundary envelope mtaInfo rcptsInfo failedHeader =
      (out, .ok hdr)) :
    hdr = reportHeaderFields now boundary envelope := by
  unfold GenerateDSN at h
  split at h
  · injection h with h1 h2
    cases h2
  · injection h with h1 h2
    cases h2
  · injection h with h1 h2
    injection h2 with h3
    exact h3.symm

/-- C10: `SendDSN` forces the header From value passed into generation
to the fixed administrative display name regardless of the caller's
envelope From, and issues the null address as the SMTP envelope
sender. -/
theorem sendDSN_spec (ext : Ext) (utf8 : Bool) (now boundary smtpaddr : String)
    (envelope : Envelope) (mtaInfo : ReportingMTAInfo) (rcptsInfo : List RecipientInfo)
    (failedHeader : List Field) (hdr : List Field) (t : Transcript)
    (hok : SendDSN ext utf8 now boundary smtpaddr envelope mtaInfo rcptsInfo failedHeader =
      .ok hdr t) :
    hdr.lookup "From" = some "MAILER-DAEMON (Mail Delivery System)" ∧
    t.mailFrom = "<>" := by
  unfold SendDSN at hok
  split at hok
  · cases hok
  · cases hok
  · next body hdr' heq =>
    injection hok with h1 h2
    subst h1
    subst h2
    have hh := generateDSN_ok_hdr ext utf8 now boundary
      { envelope with From := "MAILER-DAEMON (Mail Delivery System)" }
      mtaInfo rcptsInfo failedHeader body hdr' heq
    subst hh
    exact ⟨rfl, rfl⟩

/-- C10 witness: a concrete successful dispatch has the fixed From
header value and the null envelope sender. -/
theorem sendDSN_spec_witness :
    List.lookup "From" (reportHeaderFields "now" "b"
      ⟨"m", "MAILER-DAEMON (Mail Delivery System)", "to@example.com"⟩) =
      some "MAILER-DAEMON (Mail Delivery System)" ∧
    Transcript.mailFrom
      ⟨"relay:25", "bla", "<>", ["to@example.com"],
        renderHeader (reportHeaderFields "now" "b"
          ⟨"m", "MAILER-DAEMON (Mail Delivery System)", "to@example.com"⟩) ++
        (GenerateDSN extId false "now" "b"
          ⟨"m", "MAILER-DAEMON (Mail Delivery System)", "to@example.com"⟩
          ⟨"mta.example.com", "", "", "", "", ⟨0⟩, ⟨0⟩⟩
          [⟨"to@example.com", "", "failed", (5, 0, 0), some (.other "unreachable"), ""⟩]
          []).1⟩ = "<>" := by
  exact sendDSN_spec extId false "now" "b" "relay:25"
    ⟨"m", "orig@example.com", "to@example.com"⟩
    ⟨"mta.example.com", "", "", "", "", ⟨0⟩, ⟨0⟩⟩
    [⟨"to@example.com", "", "failed", (5, 0, 0), some (.other "unreachable"), ""⟩]
    []
    (reportHeaderFields "now" "b" ⟨"m", "MAILER-DAEMON (Mail Delivery System)", "to@example.com"⟩)
    ⟨"relay:25", "bla", "<>", ["to@example.com"],
      renderHeader (reportHeaderFields "now" "b"
        ⟨"m", "MAILER-DAEMON (Mail Delivery System)", "to@example.com"⟩) ++
      (GenerateDSN extId false "now" "b"
        ⟨"m", "MAILER-DAEMON (Mail Delivery System)", "to@example.com"⟩
        ⟨"mta.example.com", "", "", "", "", ⟨0⟩, ⟨0⟩⟩
        [⟨"to@example.com", "", "failed", (5, 0, 0), some (.other "unreachable"), ""⟩]
        []).1⟩
    rfl
